import Mathlib

/-!
Verification development for the arw-25-puzzle-game repository.

The embedding translates the three components of the program:
  - src/game/logic.py   (class GameLogic: the puzzle state and its operations)
  - src/main.py         (the per-frame interaction controller inside main)
  - src/config/camera.py (class HandTracker: the gesture classifier)

Python dictionaries for draggable objects become the structure Obj; the
GameLogic instance becomes the structure GameState.  The mutable reference
self.selected_object is modelled as an index into the objects list
(objects are never added or removed, so the index is a stable identity).
Calls to random.randint are modelled by explicit integer parameters; calls
to time.time() are modelled by an explicit rational "now" parameter.
Distances computed by math.hypot / math.dist are compared against other
distances or constant thresholds only, and the square root is strictly
monotone on nonnegative reals, so those comparisons are embedded as exact
comparisons of squared integer distances.  The square-root values that
cannot be eliminated this way (the normalized gesture features of
camera.py) are embedded over the reals with Real.sqrt.
-/

set_option maxHeartbeats 1000000

/-- One draggable object, modelling the dictionaries built by
GameLogic.create_objects in src/game/logic.py (lines 44-54).  The
rendering-only color field is omitted. -/
structure Obj where
  symbol : String
  pos : ℤ × ℤ
  size : ℤ
  in_slot : Bool
  slot_index : Option ℕ
deriving DecidableEq, Repr

instance : Inhabited Obj := ⟨⟨"", (0, 0), 0, false, none⟩⟩

/-- The state owned by a GameLogic instance (src/game/logic.py, __init__,
lines 8-36), restricted to the fields the game operations read or write.
selected_object is the index of the held object, if any. -/
structure GameState where
  reference_key : List String
  slots : List (ℤ × ℤ)
  slot_contents : List (Option String)
  objects : List Obj
  selected_object : Option ℕ
  selected_offset : ℤ × ℤ
  start_time : ℚ
  time_limit : ℚ
  win : Bool
  game_over : Bool
deriving DecidableEq

/-- self.slot_snap_radius = 70 (src/game/logic.py line 18). -/
def slot_snap_radius : ℤ := 70

/-- self.box_area = (100, 100, 400, 300) (src/game/logic.py line 28). -/
def box_area : ℤ × ℤ × ℤ × ℤ := (100, 100, 400, 300)

/-- Squared euclidean distance between two integer points.  math.hypot and
math.dist in the source produce the square root of this value; every use
compares it with another distance or a constant, which is equivalent to
comparing the squares. -/
def dist_sq (p q : ℤ × ℤ) : ℤ := (p.1 - q.1) ^ 2 + (p.2 - q.2) ^ 2

/-- The per-object hit test of GameLogic.check_collision (line 73):
abs(point.x - ox) < size and abs(point.y - oy) < size. -/
def covers (p : ℤ × ℤ) (o : Obj) : Bool :=
  decide (|p.1 - o.pos.1| < o.size) && decide (|p.2 - o.pos.2| < o.size)

/-- Scan for the top-most hit object, mirroring the loop
for obj in reversed(self.objects) of check_collision (lines 70-78): the
recursion tries the tail (the later, top-most entries) first, so the
highest hitting index wins, and n is the index of the head of the
remaining list. -/
def hit_test_rev (p : ℤ × ℤ) : List Obj → ℕ → Option ℕ
  | [], _ => none
  | o :: rest, n =>
    match hit_test_rev p rest (n + 1) with
    | some j => some j
    | none => if covers p o then some n else none

/-- Index of the object returned by check_collision, before detachment. -/
def hit_test (p : ℤ × ℤ) (objs : List Obj) : Option ℕ :=
  hit_test_rev p objs 0

/-- GameLogic._detach_from_slot (src/game/logic.py lines 80-89): clear the
slot, reset the object flags, keep the object position.  The Python guard
0 <= idx < len(slot_contents) coincides with List.set being the identity
out of range. -/
def detach_from_slot (s : GameState) (i : ℕ) : GameState :=
  let o := s.objects.getD i default
  if o.in_slot then
    let s1 :=
      match o.slot_index with
      | some k => { s with slot_contents := s.slot_contents.set k none }
      | none => s
    { s1 with objects := s1.objects.set i { o with in_slot := false, slot_index := none } }
  else s

/-- GameLogic.check_collision (src/game/logic.py lines 64-78): return the
top-most object under the point and, if it sits in a slot, detach it
immediately.  The pair holds the updated state and the index of the found
object. -/
def check_collision (s : GameState) (p : ℤ × ℤ) : GameState × Option ℕ :=
  match hit_test p s.objects with
  | none => (s, none)
  | some i =>
    if (s.objects.getD i default).in_slot then (detach_from_slot s i, some i)
    else (s, some i)

/-- The slot-scanning loop of GameLogic.check_slot_collision (lines
104-110): keep the first strictly closer slot, so the lowest index wins
ties.  Distances are compared squared. -/
def closest_slot (p : ℤ × ℤ) : List (ℤ × ℤ) → ℕ → Option (ℕ × ℤ)
  | [], _ => none
  | c :: rest, n =>
    let d := dist_sq p c
    match closest_slot p rest (n + 1) with
    | none => some (n, d)
    | some (bj, bd) => if bd < d then some (bj, bd) else some (n, d)

/-- GameLogic.check_slot_collision (src/game/logic.py lines 91-114): when
an object is selected its center is used instead of the fingertip point;
the nearest slot is returned when its distance is at most the snap
radius. -/
def check_slot_collision (s : GameState) (p : ℤ × ℤ) : Option ℕ :=
  let pos :=
    match s.selected_object with
    | some i => (s.objects.getD i default).pos
    | none => p
  match closest_slot pos s.slots 0 with
  | none => none
  | some (i, d) => if d ≤ slot_snap_radius ^ 2 then some i else none

/-- GameLogic.update_object_position (src/game/logic.py lines 128-129). -/
def update_object_position (s : GameState) (i : ℕ) (q : ℤ × ℤ) : GameState :=
  let o := s.objects.getD i default
  { s with objects := s.objects.set i { o with pos := q } }

/-- GameLogic.check_win_condition (src/game/logic.py lines 164-169):
compare every slot occupant with the reference key entry of the same
index; a slot holding None never equals a symbol.  On success set both
win and game_over. -/
def check_win_condition (s : GameState) : GameState :=
  if (List.range s.reference_key.length).all
      (fun i => s.slot_contents.getD i none == some (s.reference_key.getD i "")) then
    { s with win := true, game_over := true }
  else s

/-- GameLogic.place_in_slot (src/game/logic.py lines 131-146): a None slot
index or an occupied slot is a silent no-op; otherwise snap the object to
the slot center, record the occupancy, and check the win condition
synchronously. -/
def place_in_slot (s : GameState) (i : ℕ) (slot? : Option ℕ) : GameState :=
  match slot? with
  | none => s
  | some k =>
    if (s.slot_contents.getD k none).isSome then s
    else
      let o := s.objects.getD i default
      let c := s.slots.getD k (0, 0)
      check_win_condition
        { s with
          objects := s.objects.set i { o with in_slot := true, slot_index := some k, pos := c }
          slot_contents := s.slot_contents.set k (some o.symbol) }

/-- GameLogic.remove_from_slot (src/game/logic.py lines 148-162): a no-op
on an object that is not in a slot; otherwise clear the slot and, unless
keep_pos, move the object to the randomized point (rx, ry) drawn by
random.randint inside the box area with a 20 px inset. -/
def remove_from_slot (s : GameState) (i : ℕ) (keep_pos : Bool) (rx ry : ℤ) : GameState :=
  let o := s.objects.getD i default
  if o.in_slot then
    let s1 :=
      match o.slot_index with
      | some k => { s with slot_contents := s.slot_contents.set k none }
      | none => s
    let s2 := { s1 with objects := s1.objects.set i { o with in_slot := false, slot_index := none } }
    if keep_pos then s2
    else
      let o2 := s2.objects.getD i default
      { s2 with objects := s2.objects.set i { o2 with pos := (rx, ry) } }
  else s

/-- The inner scan of GameLogic.update (lines 183-187): the first object
flagged as sitting in slot i, in list order, mirroring the break. -/
def find_idx_slotted (i : ℕ) : List Obj → ℕ → Option ℕ
  | [], _ => none
  | o :: rest, j =>
    if o.in_slot && o.slot_index == some i then some j
    else find_idx_slotted i rest (j + 1)

/-- One pass of the re-snap loop of GameLogic.update (lines 180-187) for
slot index i: an occupied slot drags its object back to the slot
center. -/
def resnap_one (s : GameState) (i : ℕ) : GameState :=
  match s.slot_contents.getD i none with
  | none => s
  | some _ =>
    match find_idx_slotted i s.objects 0 with
    | none => s
    | some j =>
      let o := s.objects.getD j default
      { s with objects := s.objects.set j { o with pos := s.slots.getD i (0, 0) } }

/-- GameLogic.update (src/game/logic.py lines 171-187): set game_over on
timeout while not won, then re-snap slotted objects.  The wall clock read
time.time() is the explicit parameter now. -/
def update (s : GameState) (now : ℚ) : GameState :=
  let elapsed := now - s.start_time
  let remaining := s.time_limit - elapsed
  let s1 := if remaining ≤ 0 ∧ s.win = false then { s with game_over := true } else s
  (List.range s1.slot_contents.length).foldl resnap_one s1

/-- The per-frame interaction block of main (src/main.py lines 241-259):
on a pinch either pick up the hit object (recording the pick offset) or
drag the held one; on release find a candidate slot from
check_slot_collision, place there if one came back, otherwise call
remove_from_slot, then drop the held reference.  The randomized respawn
point of remove_from_slot is the explicit pair (rx, ry). -/
def main_interaction (s : GameState) (pt : ℤ × ℤ) (is_action : Bool) (rx ry : ℤ) : GameState :=
  if is_action then
    match s.selected_object with
    | none =>
      let r := check_collision s pt
      match r.2 with
      | some i =>
        let o := r.1.objects.getD i default
        { r.1 with
          selected_object := some i
          selected_offset := (pt.1 - o.pos.1, pt.2 - o.pos.2) }
      | none => { r.1 with selected_object := none }
    | some i =>
      update_object_position s i (pt.1 - s.selected_offset.1, pt.2 - s.selected_offset.2)
  else
    match s.selected_object with
    | none => s
    | some i =>
      let s1 :=
        match check_slot_collision s pt with
        | some k => place_in_slot s i (some k)
        | none => remove_from_slot s i false rx ry
      { s1 with selected_object := none }

/-- The camera-mode guard of main (src/main.py line 237): the interaction
block runs only when the game is not over and the index tip is defined
(in camera mode use_mouse is false, so the condition
not game.game_over and (index_tip or tracker.use_mouse) reduces to the
index tip being present). -/
def camera_frame_step (s : GameState) (tip : Option (ℤ × ℤ)) (is_action : Bool)
    (rx ry : ℤ) : GameState :=
  if s.game_over = false ∧ tip.isSome then
    main_interaction s (tip.getD (0, 0)) is_action rx ry
  else s

/-- The state built by GameLogic.__init__ (src/game/logic.py lines 8-36):
five slots on a horizontal line, empty slot contents, no selection, a
60 second limit, win and game_over false.  The shuffled reference key,
the randomly scattered objects and the construction time are the explicit
parameters key, objs and t0. -/
def mk_game_logic (key : List String) (objs : List Obj) (t0 : ℚ) : GameState :=
  { reference_key := key
    slots := (List.range 5).map (fun i => ((300 : ℤ) + (i : ℤ) * 100, (500 : ℤ)))
    slot_contents := List.replicate 5 none
    objects := objs
    selected_object := none
    selected_offset := (0, 0)
    start_time := t0
    time_limit := 60
    win := false
    game_over := false }

/-- One mutation of a GameLogic instance: any call the program makes on
the game state, with arbitrary arguments. -/
inductive Step : GameState → GameState → Prop
  | collision (s : GameState) (p : ℤ × ℤ) : Step s (check_collision s p).1
  | place (s : GameState) (i : ℕ) (slot? : Option ℕ) : Step s (place_in_slot s i slot?)
  | remove (s : GameState) (i : ℕ) (b : Bool) (rx ry : ℤ) :
      Step s (remove_from_slot s i b rx ry)
  | move (s : GameState) (i : ℕ) (q : ℤ × ℤ) : Step s (update_object_position s i q)
  | tick (s : GameState) (now : ℚ) : Step s (update s now)
  | frame (s : GameState) (tip : Option (ℤ × ℤ)) (b : Bool) (rx ry : ℤ) :
      Step s (camera_frame_step s tip b rx ry)

/-- States a GameLogic instance can reach: freshly constructed, or one
mutation away from a reachable state. -/
inductive Reachable : GameState → Prop
  | init (key : List String) (objs : List Obj) (t0 : ℚ) : Reachable (mk_game_logic key objs t0)
  | step {s t : GameState} : Reachable s → Step s t → Reachable t

/-- Landmark lookup: points_xy[i] in src/config/camera.py.  MediaPipe
always yields 21 landmarks, so the default is never consulted on real
inputs. -/
def pts_get (pts : List (ℤ × ℤ)) (i : ℕ) : ℤ × ℤ := pts.getD i (0, 0)

/-- The bounding box of HandTracker.get_mediapipe_hand (src/config/camera.py
lines 107-113): min and max of the landmark coordinates, clamped to the
frame, as (x_min, y_min, bbox_w, bbox_h). -/
def bbox_of (pts : List (ℤ × ℤ)) (w h : ℤ) : ℤ × ℤ × ℤ × ℤ :=
  let xs := pts.map Prod.fst
  let ys := pts.map Prod.snd
  let xmin := max (xs.min?.getD 0) 0
  let xmax := min (xs.max?.getD 0) (w - 1)
  let ymin := max (ys.min?.getD 0) 0
  let ymax := min (ys.max?.getD 0) (h - 1)
  (xmin, ymin, xmax - xmin, ymax - ymin)

/-- The five fingertip landmark indices (src/config/camera.py line 140). -/
def fingertip_ids : List ℕ := [4, 8, 12, 16, 20]

noncomputable section

/-- diag = max(1.0, np.hypot(bbox_w, bbox_h)) (src/config/camera.py
line 132). -/
def diag_of (pts : List (ℤ × ℤ)) (w h : ℤ) : ℝ :=
  let b := bbox_of pts w h
  max 1 (Real.sqrt ((b.2.2.1 ^ 2 + b.2.2.2 ^ 2 : ℤ) : ℝ))

/-- thumb_index_dist (src/config/camera.py lines 133-135): the distance
between landmarks 4 and 8, normalized by the bounding-box diagonal. -/
def thumb_index_dist (pts : List (ℤ × ℤ)) (w h : ℤ) : ℝ :=
  Real.sqrt ((dist_sq (pts_get pts 4) (pts_get pts 8) : ℤ) : ℝ) / diag_of pts w h

/-- avg_tip_to_wrist (src/config/camera.py lines 139-144): the mean of the
five fingertip-to-wrist distances, normalized by the diagonal. -/
def avg_tip_to_wrist (pts : List (ℤ × ℤ)) (w h : ℤ) : ℝ :=
  ((fingertip_ids.map
      (fun i => Real.sqrt ((dist_sq (pts_get pts i) (pts_get pts 0) : ℤ) : ℝ))).sum / 5)
    / diag_of pts w h

/-- The state heuristic of get_mediapipe_hand (src/config/camera.py lines
146-155): pinch on a small normalized thumb-index distance or a small
bounding box, else open on spread fingertips, else none. -/
def hand_state_of (pts : List (ℤ × ℤ)) (w h : ℤ) : String :=
  if thumb_index_dist pts w h < 0.18 ∨ diag_of pts w h < 120 then "pinch"
  else if avg_tip_to_wrist pts w h > 0.38 then "open"
  else "none"

/-- The per-frame observation exposed by HandTracker (src/config/camera.py
lines 18-21 and 84-192): the fields assigned by get_mediapipe_hand plus
the returned fingertip points. -/
structure HandObs where
  hand_detected : Bool
  hand_bbox : Option (ℤ × ℤ × ℤ × ℤ)
  hand_state : String
  index_tip : Option (ℤ × ℤ)
  thumb_tip : Option (ℤ × ℤ)

/-- HandTracker.get_mediapipe_hand (src/config/camera.py lines 84-192):
with no hand the fields keep their reset values (lines 90-96); with a
hand the box, state and fingertips are computed from the landmarks. -/
def get_mediapipe_hand (pts? : Option (List (ℤ × ℤ))) (w h : ℤ) : HandObs :=
  match pts? with
  | none =>
    { hand_detected := false, hand_bbox := none, hand_state := "none"
      index_tip := none, thumb_tip := none }
  | some pts =>
    { hand_detected := true
      hand_bbox := some (bbox_of pts w h)
      hand_state := hand_state_of pts w h
      index_tip := some (pts_get pts 8)
      thumb_tip := some (pts_get pts 4) }

end

/-- Modelled from the spec: the reference-key construction the spec
describes in section 4.3 takes a symbol pool and fails when it has fewer
than K usable symbols.  The GameLogic the running program builds is
constructed as GameLogic(assets, ruby_files, gear_files) in src/main.py
line 204, and that three-argument constructor is not under src/ (the
GameLogic of src/game/logic.py takes no arguments and a fixed symbol
list), so the pool-validating construction is modelled here from the
spec text: usable symbols are the distinct symbols of the pool, the key
is K of them, and a pool with fewer than K of them is a construction
error.  Which K symbols are chosen and in which order is irrelevant to
the claim and fixed arbitrarily. -/
def construct_reference_key (pool : List String) (K : ℕ) : Except String (List String) :=
  let usable := pool.dedup
  if usable.length < K then Except.error "insufficient symbol pool"
  else Except.ok (usable.take K)

lemma getD_set_self {α : Type} (l : List α) (i : ℕ) (a d : α) (h : i < l.length) :
    (l.set i a).getD i d = a := by
  simp [List.getD_eq_getElem?_getD, List.getElem?_set_self h]

lemma getD_set_ne {α : Type} (l : List α) {i j : ℕ} (a d : α) (h : i ≠ j) :
    (l.set i a).getD j d = l.getD j d := by
  simp [List.getD_eq_getElem?_getD, List.getElem?_set_ne h]

lemma getD_set_none {α : Type} (l : List (Option α)) (k : ℕ) :
    (l.set k none).getD k none = none := by
  by_cases h : k < l.length
  · exact getD_set_self l k none none h
  · rw [List.set_eq_of_length_le (by omega)]
    simp [List.getD_eq_getElem?_getD, List.getElem?_eq_none (by omega : l.length ≤ k)]

/-- C7: attempting to place a held object into an occupied slot is a
silent no-op: the whole game state, the slot contents, the object
position, slot index and in-slot flag included, is unchanged, and no
error is raised (the operation is total). -/
theorem c7_occupied_place_noop (s : GameState) (i k : ℕ)
    (h : (s.slot_contents.getD k none).isSome = true) :
    place_in_slot s i (some k) = s := by
  simp only [place_in_slot]
  rw [if_pos h]

def c7_state : GameState :=
  { reference_key := ["RUBY-1"]
    slots := [(300, 500)]
    slot_contents := [some "GEAR-A"]
    objects := [⟨"RUBY-1", (10, 10), 40, false, none⟩]
    selected_object := none
    selected_offset := (0, 0)
    start_time := 0
    time_limit := 60
    win := false
    game_over := false }

theorem c7_witness :
    (c7_state.slot_contents.getD 0 none).isSome = true ∧
    place_in_slot c7_state 0 (some 0) = c7_state :=
  ⟨by decide, c7_occupied_place_noop c7_state 0 0 (by decide)⟩

/-- C10: in camera mode, a frame with no index tip while an object is
held performs no mutation at all: the whole game state, the held
reference, the offset, all object positions and slot indices, and the
slot contents are unchanged.  Hand loss while holding freezes the held
object rather than forcing a release. -/
theorem c10_hand_loss_freezes (s : GameState) (i : ℕ) (act : Bool) (rx ry : ℤ)
    (_hheld : s.selected_object = some i) :
    camera_frame_step s none act rx ry = s := by
  unfold camera_frame_step
  simp

def c10_state : GameState :=
  { reference_key := ["RUBY-1"]
    slots := [(300, 500)]
    slot_contents := [none]
    objects := [⟨"RUBY-1", (200, 200), 40, false, none⟩]
    selected_object := some 0
    selected_offset := (3, 4)
    start_time := 0
    time_limit := 60
    win := false
    game_over := false }

theorem c10_witness :
    c10_state.selected_object = some 0 ∧
    camera_frame_step c10_state none true 7 9 = c10_state :=
  ⟨rfl, c10_hand_loss_freezes c10_state 0 true 7 9 rfl⟩

/-- C1: a successful placement evaluates the win condition synchronously
inside place_in_slot: starting from a not-yet-won state, win and
game_over both end up true exactly when every slot occupant equals the
reference key entry of the same index (a slot occupied by none never
matches, since none differs from every some symbol). -/
theorem c1_win_synchronous (s : GameState) (i k : ℕ)
    (hw : s.win = false) (hempty : s.slot_contents.getD k none = none) :
    (((place_in_slot s i (some k)).win = true ∧ (place_in_slot s i (some k)).game_over = true) ↔
      ∀ j, j < s.reference_key.length →
        (place_in_slot s i (some k)).slot_contents.getD j none =
          some (s.reference_key.getD j "")) := by
  have key : ∀ s2 : GameState, s2.win = false →
      (((check_win_condition s2).win = true ∧ (check_win_condition s2).game_over = true) ↔
        ∀ j, j < s2.reference_key.length →
          (check_win_condition s2).slot_contents.getD j none =
            some (s2.reference_key.getD j "")) := by
    intro s2 h2
    unfold check_win_condition
    by_cases hc : (List.range s2.reference_key.length).all
        (fun j => s2.slot_contents.getD j none == some (s2.reference_key.getD j "")) = true
    · rw [if_pos hc]
      constructor
      · intro _ j hj
        have := List.all_eq_true.mp hc j (List.mem_range.mpr hj)
        simpa using this
      · intro _
        exact ⟨rfl, rfl⟩
    · rw [if_neg hc]
      constructor
      · intro hwin
        rw [h2] at hwin
        exact absurd hwin.1 (by simp)
      · intro hall
        exfalso
        apply hc
        apply List.all_eq_true.mpr
        intro j hj
        simpa using hall j (List.mem_range.mp hj)
  have hif : (s.slot_contents.getD k none).isSome = false := by rw [hempty]; rfl
  simp only [place_in_slot]
  rw [hif, if_neg (by decide)]
  exact key _ hw


def c1_state : GameState :=
  { reference_key := ["K1"]
    slots := [(300, 500)]
    slot_contents := [none]
    objects := [⟨"K1", (10, 10), 40, false, none⟩]
    selected_object := none
    selected_offset := (0, 0)
    start_time := 0
    time_limit := 60
    win := false
    game_over := false }

theorem c1_witness :
    (place_in_slot c1_state 0 (some 0)).win = true ∧
    (place_in_slot c1_state 0 (some 0)).game_over = true :=
  (c1_win_synchronous c1_state 0 0 rfl rfl).mpr (by decide)

/-- C9: the reference-key construction fails with a construction error
whenever the symbol pool holds fewer than K usable symbols, and a
successful construction always yields a key of length exactly K, never a
shorter one. -/
theorem c9_pool_guard (pool : List String) (K : ℕ) :
    (pool.dedup.length < K →
      construct_reference_key pool K = Except.error "insufficient symbol pool") ∧
    (∀ key, construct_reference_key pool K = Except.ok key → key.length = K) := by
  constructor
  · intro h
    unfold construct_reference_key
    rw [if_pos h]
  · intro key hk
    unfold construct_reference_key at hk
    by_cases h : pool.dedup.length < K
    · rw [if_pos h] at hk
      exact absurd hk (by simp)
    · rw [if_neg h] at hk
      simp only [Except.ok.injEq] at hk
      rw [← hk, List.length_take]
      omega

theorem c9_witness :
    construct_reference_key ["GEAR-A"] 5 = Except.error "insufficient symbol pool" ∧
    (["RUBY-1", "GEAR-A", "RUBY-2", "GEAR-B", "RUBY-3"] : List String).length = 5 :=
  ⟨(c9_pool_guard ["GEAR-A"] 5).1 (by decide),
   (c9_pool_guard ["RUBY-1", "GEAR-A", "RUBY-2", "GEAR-B", "RUBY-3"] 5).2
      ["RUBY-1", "GEAR-A", "RUBY-2", "GEAR-B", "RUBY-3"] rfl⟩

/-- C5: picking up a slotted object through check_collision clears its
former slot and its slot index, keeps its position, and touches nothing
else: every other object, every other slot, the selection, the flags and
the fixed geometry are unchanged. -/
theorem c5_detach_on_pickup (s : GameState) (p : ℤ × ℤ) (i k : ℕ)
    (hfind : hit_test p s.objects = some i)
    (hi : i < s.objects.length)
    (hslot : (s.objects.getD i default).in_slot = true)
    (hidx : (s.objects.getD i default).slot_index = some k) :
    (check_collision s p).2 = some i ∧
    ((check_collision s p).1).slot_contents.getD k none = none ∧
    (((check_collision s p).1).objects.getD i default).slot_index = none ∧
    (((check_collision s p).1).objects.getD i default).in_slot = false ∧
    (((check_collision s p).1).objects.getD i default).pos = (s.objects.getD i default).pos ∧
    (∀ j, j ≠ i → ((check_collision s p).1).objects.getD j default = s.objects.getD j default) ∧
    (∀ m, m ≠ k →
      ((check_collision s p).1).slot_contents.getD m none = s.slot_contents.getD m none) ∧
    ((check_collision s p).1).reference_key = s.reference_key ∧
    ((check_collision s p).1).slots = s.slots ∧
    ((check_collision s p).1).selected_object = s.selected_object ∧
    ((check_collision s p).1).win = s.win ∧
    ((check_collision s p).1).game_over = s.game_over := by
  have hcc : check_collision s p = (detach_from_slot s i, some i) := by
    simp only [check_collision, hfind, hslot, if_true]
  have hdet : detach_from_slot s i =
      { s with
        slot_contents := s.slot_contents.set k none
        objects := s.objects.set i
          { s.objects.getD i default with in_slot := false, slot_index := none } } := by
    simp only [detach_from_slot, hslot, hidx, if_true]
  rw [hcc, hdet]
  refine ⟨rfl, ?_, ?_, ?_, ?_, ?_, ?_, rfl, rfl, rfl, rfl, rfl⟩
  · exact getD_set_none s.slot_contents k
  · rw [getD_set_self s.objects i _ default hi]
  · rw [getD_set_self s.objects i _ default hi]
  · rw [getD_set_self s.objects i _ default hi]
  · intro j hj
    exact getD_set_ne s.objects _ default (fun h => hj h.symm)
  · intro m hm
    exact getD_set_ne s.slot_contents _ none (fun h => hm h.symm)

def c5_state : GameState :=
  { reference_key := ["A", "B"]
    slots := [(300, 500), (400, 500)]
    slot_contents := [some "A", none]
    objects := [⟨"A", (300, 500), 40, true, some 0⟩]
    selected_object := none
    selected_offset := (0, 0)
    start_time := 0
    time_limit := 60
    win := false
    game_over := false }

theorem c5_witness :
    (check_collision c5_state (310, 490)).2 = some 0 ∧
    ((check_collision c5_state (310, 490)).1).slot_contents.getD 0 none = none ∧
    (((check_collision c5_state (310, 490)).1).objects.getD 0 default).slot_index = none ∧
    (((check_collision c5_state (310, 490)).1).objects.getD 0 default).pos =
      (c5_state.objects.getD 0 default).pos :=
  have h := c5_detach_on_pickup c5_state (310, 490) 0 0 (by decide) (by decide) rfl rfl
  ⟨h.1, h.2.1, h.2.2.1, h.2.2.2.2.1⟩

lemma hit_test_rev_eq_none (p : ℤ × ℤ) (l : List Obj) (n : ℕ)
    (h : ∀ j, j < l.length → covers p (l.getD j default) = false) :
    hit_test_rev p l n = none := by
  induction l generalizing n with
  | nil => rfl
  | cons o rest ih =>
    unfold hit_test_rev
    rw [ih (n + 1) (fun j hj => by
      have := h (j + 1) (by simpa using Nat.succ_lt_succ hj)
      simpa using this)]
    have h0 : covers p o = false := by simpa using h 0 (by simp)
    rw [h0]
    rfl

lemma hit_test_rev_eq_some (p : ℤ × ℤ) (l : List Obj) (n i : ℕ)
    (hi : i < l.length)
    (hhit : covers p (l.getD i default) = true)
    (habove : ∀ j, i < j → j < l.length → covers p (l.getD j default) = false) :
    hit_test_rev p l n = some (n + i) := by
  induction l generalizing n i with
  | nil => exact absurd hi (by simp)
  | cons o rest ih =>
    unfold hit_test_rev
    cases i with
    | zero =>
      rw [hit_test_rev_eq_none p rest (n + 1) (fun j hj => by
        have := habove (j + 1) (Nat.succ_pos j) (by simpa using Nat.succ_lt_succ hj)
        simpa using this)]
      have h0 : covers p o = true := by simpa using hhit
      rw [h0]
      rfl
    | succ m =>
      rw [ih (n + 1) m (by simpa using hi) (by simpa using hhit)
        (fun j hj1 hj2 => by
          have := habove (j + 1) (Nat.succ_lt_succ hj1) (by simpa using Nat.succ_lt_succ hj2)
          simpa using this)]
      have : n + 1 + m = n + (m + 1) := by omega
      rw [this]

/-- C3 amended: the pickup hit test scans objects top-most first (the end
of the list) and returns the first object whose center is within its own
size of the point on each axis separately (a square test), regardless of
whether a nearer qualifying object exists; when no object qualifies it
returns nothing.  An object staged at (150,150) with size 40 is selected
by a tap at (160,160) and nothing is selected at (250,250). -/
theorem c3_topmost_hit (p : ℤ × ℤ) (objs : List Obj) :
    ((∀ j, j < objs.length → covers p (objs.getD j default) = false) →
      hit_test p objs = none) ∧
    (∀ i, i < objs.length → covers p (objs.getD i default) = true →
      (∀ j, i < j → j < objs.length → covers p (objs.getD j default) = false) →
      hit_test p objs = some i) := by
  constructor
  · intro h
    exact hit_test_rev_eq_none p objs 0 h
  · intro i hi hh ha
    have := hit_test_rev_eq_some p objs 0 i hi hh ha
    simpa using this

def c3_objA : Obj := ⟨"A", (100, 100), 40, false, none⟩

def c3_objB : Obj := ⟨"B", (124, 124), 40, false, none⟩

/-- C3 counterexample: at point (101,101) both objects qualify under the
per-axis test and under the euclidean within-size reading, object A at
index 0 is strictly nearer, yet the hit test selects object B at index 1
(the top-most), so the selection is not the nearest qualifying object. -/
theorem c3_counterexample :
    hit_test (101, 101) [c3_objA, c3_objB] = some 1 ∧
    dist_sq (101, 101) c3_objA.pos < dist_sq (101, 101) c3_objB.pos ∧
    dist_sq (101, 101) c3_objA.pos < c3_objA.size ^ 2 ∧
    dist_sq (101, 101) c3_objB.pos < c3_objB.size ^ 2 := by
  refine ⟨?_, by decide, by decide, by decide⟩
  decide

def c3_obj : Obj := ⟨"A", (150, 150), 40, false, none⟩

theorem c3_witness :
    hit_test (160, 160) [c3_obj] = some 0 ∧ hit_test (250, 250) [c3_obj] = none :=
  ⟨(c3_topmost_hit (160, 160) [c3_obj]).2 0 (by decide) (by decide)
      (fun j h1 h2 => by
        have hl : j < 1 := by simpa using h2
        exact absurd hl (by omega)),
   (c3_topmost_hit (250, 250) [c3_obj]).1
      (fun j hj => by
        have : j = 0 := by simpa using Nat.lt_one_iff.mp (by simpa using hj)
        subst this
        decide)⟩

def c2_obj : Obj := ⟨"RUBY-1", (300, 571), 40, false, none⟩

def c2_state : GameState :=
  { reference_key := ["RUBY-1", "GEAR-A", "RUBY-2", "GEAR-B", "RUBY-3"]
    slots := [(300, 500), (400, 500), (500, 500), (600, 500), (700, 500)]
    slot_contents := List.replicate 5 none
    objects := [c2_obj]
    selected_object := some 0
    selected_offset := (0, 0)
    start_time := 0
    time_limit := 60
    win := false
    game_over := false }

/-- C2: the release path never respawns the object.  The held object sits
at (300,571), at distance 71 from the nearest slot (300,500), just
outside the 70 px snap radius, so no slot qualifies; the controller calls
remove_from_slot, which returns immediately because a held object is
never flagged in_slot (pickup already detached it), so for every draw of
the randomized respawn point the object keeps its dragged position
(300,571) instead of receiving a fresh position inside the staging box,
and only the held reference is cleared. -/
theorem c2_release_keeps_position :
    (∀ rx ry : ℤ, main_interaction c2_state (300, 571) false rx ry =
      { c2_state with selected_object := none }) ∧
    dist_sq c2_obj.pos (300, 500) = 71 ^ 2 ∧
    slot_snap_radius = 70 ∧
    check_slot_collision c2_state (300, 571) = none ∧
    (∀ rx ry : ℤ,
      ((main_interaction c2_state (300, 571) false rx ry).objects.getD 0 default).pos =
        (300, 571)) :=
  ⟨fun _ _ => rfl, by decide, rfl, by decide, fun _ _ => rfl⟩

lemma cwc_cases (s : GameState) :
    ((check_win_condition s).win = s.win ∧ (check_win_condition s).game_over = s.game_over) ∨
    ((check_win_condition s).win = true ∧ (check_win_condition s).game_over = true) := by
  unfold check_win_condition
  split
  · right
    exact ⟨rfl, rfl⟩
  · left
    exact ⟨rfl, rfl⟩

lemma ccoll_flags (s : GameState) (p : ℤ × ℤ) :
    ((check_collision s p).1).win = s.win ∧
    ((check_collision s p).1).game_over = s.game_over := by
  rcases hf : hit_test p s.objects with _ | i
  · refine ⟨?_, ?_⟩ <;> simp only [check_collision, hf]
  · refine ⟨?_, ?_⟩ <;> simp only [check_collision, hf] <;> split <;>
      (simp only [detach_from_slot]; repeat' split) <;> rfl

lemma remove_flags (s : GameState) (i : ℕ) (b : Bool) (rx ry : ℤ) :
    (remove_from_slot s i b rx ry).win = s.win ∧
    (remove_from_slot s i b rx ry).game_over = s.game_over := by
  refine ⟨?_, ?_⟩ <;> (simp only [remove_from_slot]; repeat' split) <;> rfl

lemma place_cases (s : GameState) (i : ℕ) (slot? : Option ℕ) :
    ((place_in_slot s i slot?).win = s.win ∧ (place_in_slot s i slot?).game_over = s.game_over) ∨
    ((place_in_slot s i slot?).win = true ∧ (place_in_slot s i slot?).game_over = true) := by
  cases slot? with
  | none =>
    left
    exact ⟨rfl, rfl⟩
  | some k =>
    simp only [place_in_slot]
    split
    · left
      exact ⟨rfl, rfl⟩
    · rcases cwc_cases
        { s with
          objects := s.objects.set i
            { s.objects.getD i default with
                in_slot := true, slot_index := some k, pos := s.slots.getD k (0, 0) }
          slot_contents := s.slot_contents.set k (some (s.objects.getD i default).symbol) }
        with h | h
      · left
        exact ⟨h.1, h.2⟩
      · right
        exact ⟨h.1, h.2⟩

lemma resnap_flags (s : GameState) (i : ℕ) :
    (resnap_one s i).win = s.win ∧ (resnap_one s i).game_over = s.game_over := by
  refine ⟨?_, ?_⟩ <;> (simp only [resnap_one]; repeat' split) <;> rfl

lemma foldl_resnap_flags (l : List ℕ) (s : GameState) :
    (l.foldl resnap_one s).win = s.win ∧ (l.foldl resnap_one s).game_over = s.game_over := by
  induction l generalizing s with
  | nil => exact ⟨rfl, rfl⟩
  | cons a t ih =>
    have h1 := resnap_flags s a
    have h2 := ih (resnap_one s a)
    simp only [List.foldl_cons]
    exact ⟨h2.1.trans h1.1, h2.2.trans h1.2⟩

lemma update_flags (s : GameState) (now : ℚ) :
    (update s now).win = s.win ∧
    ((update s now).game_over = s.game_over ∨
      ((update s now).game_over = true ∧ s.time_limit - (now - s.start_time) ≤ 0)) := by
  simp only [update]
  by_cases hc : s.time_limit - (now - s.start_time) ≤ 0 ∧ s.win = false
  · rw [if_pos hc]
    have h := foldl_resnap_flags
      (List.range ({ s with game_over := true } : GameState).slot_contents.length)
      { s with game_over := true }
    exact ⟨h.1, Or.inr ⟨h.2, hc.1⟩⟩
  · rw [if_neg hc]
    have h := foldl_resnap_flags (List.range s.slot_contents.length) s
    exact ⟨h.1, Or.inl h.2⟩

lemma interaction_cases (s : GameState) (pt : ℤ × ℤ) (b : Bool) (rx ry : ℤ) :
    ((main_interaction s pt b rx ry).win = s.win ∧
     (main_interaction s pt b rx ry).game_over = s.game_over) ∨
    ((main_interaction s pt b rx ry).win = true ∧
     (main_interaction s pt b rx ry).game_over = true) := by
  simp only [main_interaction]
  split
  · split
    · split
      · left
        have h := ccoll_flags s pt
        exact ⟨h.1, h.2⟩
      · left
        have h := ccoll_flags s pt
        exact ⟨h.1, h.2⟩
    · left
      exact ⟨rfl, rfl⟩
  · split
    · left
      exact ⟨rfl, rfl⟩
    · rename_i i _hi
      split
      · rename_i k _hk
        rcases place_cases s i (some k) with h | h
        · left
          exact ⟨h.1, h.2⟩
        · right
          exact ⟨h.1, h.2⟩
      · left
        have h := remove_flags s i false rx ry
        exact ⟨h.1, h.2⟩

lemma frame_cases (s : GameState) (tip : Option (ℤ × ℤ)) (b : Bool) (rx ry : ℤ) :
    ((camera_frame_step s tip b rx ry).win = s.win ∧
     (camera_frame_step s tip b rx ry).game_over = s.game_over) ∨
    ((camera_frame_step s tip b rx ry).win = true ∧
     (camera_frame_step s tip b rx ry).game_over = true) := by
  unfold camera_frame_step
  split
  · exact interaction_cases s _ b rx ry
  · left
    exact ⟨rfl, rfl⟩

lemma step_flags {s t : GameState} (h : Step s t) :
    (t.win = s.win ∧ t.game_over = s.game_over) ∨
    (t.win = true ∧ t.game_over = true) ∨
    (t.win = s.win ∧ t.game_over = true ∧
      ∃ now, t = update s now ∧ s.time_limit - (now - s.start_time) ≤ 0) := by
  cases h with
  | collision p => exact Or.inl (ccoll_flags s p)
  | place i slot? =>
    rcases place_cases s i slot? with h | h
    · exact Or.inl h
    · exact Or.inr (Or.inl h)
  | remove i b rx ry => exact Or.inl (remove_flags s i b rx ry)
  | move i q => exact Or.inl ⟨rfl, rfl⟩
  | tick now =>
    rcases update_flags s now with ⟨hw, hg | hg⟩
    · exact Or.inl ⟨hw, hg⟩
    · exact Or.inr (Or.inr ⟨hw, hg.1, now, rfl, hg.2⟩)
  | frame tip b rx ry =>
    rcases frame_cases s tip b rx ry with h | h
    · exact Or.inl h
    · exact Or.inr (Or.inl h)

/-- C4: at every reachable state of a GameLogic instance, win implies
game_over; along every operation win never goes from true to false and
game_over never resets to false (so game_over becomes true at most once,
and only full reconstruction restores it); and when an operation flips
game_over from false to true, either the state is won (the win path) or
the operation is the timer update past the time limit (the timeout
path). -/
theorem c4_win_gameover_invariants :
    (∀ s, Reachable s → s.win = true → s.game_over = true) ∧
    (∀ s t, Step s t →
      (s.win = true → t.win = true) ∧ (s.game_over = true → t.game_over = true)) ∧
    (∀ s t, Step s t → s.game_over = false → t.game_over = true →
      t.win = true ∨ ∃ now, t = update s now ∧ s.time_limit - (now - s.start_time) ≤ 0) := by
  have hmono : ∀ s t, Step s t →
      (s.win = true → t.win = true) ∧ (s.game_over = true → t.game_over = true) := by
    intro s t hst
    rcases step_flags hst with h | h | h
    · exact ⟨fun hw => h.1.trans hw, fun hg => h.2.trans hg⟩
    · exact ⟨fun _ => h.1, fun _ => h.2⟩
    · exact ⟨fun hw => h.1.trans hw, fun _ => h.2.1⟩
  refine ⟨?_, hmono, ?_⟩
  · intro s hr
    induction hr with
    | init key objs t0 =>
      intro hw
      exact absurd hw (by simp [mk_game_logic])
    | step hr hst ih =>
      intro hw
      rcases step_flags hst with h | h | h
      · exact h.2.trans (ih (h.1.symm.trans hw))
      · exact h.2
      · exact h.2.1
  · intro s t hst hg0 hg1
    rcases step_flags hst with h | h | h
    · have : s.game_over = true := h.2.symm.trans hg1
      rw [hg0] at this
      exact absurd this (by decide)
    · exact Or.inl h.1
    · exact Or.inr h.2.2

def c4_obj : Obj := ⟨"K1", (150, 150), 40, false, none⟩

def c4_s0 : GameState := mk_game_logic ["K1"] [c4_obj] 0

theorem c4_witness :
    (place_in_slot c4_s0 0 (some 0)).game_over = true ∧
    ((place_in_slot c4_s0 0 (some 0)).win = true ∨
      ∃ now, place_in_slot c4_s0 0 (some 0) = update c4_s0 now ∧
        c4_s0.time_limit - (now - c4_s0.start_time) ≤ 0) :=
  ⟨c4_win_gameover_invariants.1 (place_in_slot c4_s0 0 (some 0))
      (Reachable.step (Reachable.init ["K1"] [c4_obj] 0) (Step.place c4_s0 0 (some 0)))
      (by decide),
   c4_win_gameover_invariants.2.2 c4_s0 (place_in_slot c4_s0 0 (some 0))
      (Step.place c4_s0 0 (some 0)) (by decide) (by decide)⟩

lemma sqrt_int_eval (n : ℤ) (m : ℕ) (h : (m : ℤ) * m = n) :
    Real.sqrt ((n : ℤ) : ℝ) = m := by
  have h0 : ((n : ℤ) : ℝ) = (m : ℝ) * (m : ℝ) := by
    rw [← h]
    push_cast
    ring
  rw [h0, Real.sqrt_mul_self (by positivity)]

/-- C6: for every detected hand the classifier assigns the state in
priority order: pinch exactly when the normalized thumb-index distance is
below 0.18 or the bounding-box diagonal is below 120 pixels, regardless
of the openness measure; otherwise open exactly when the mean normalized
fingertip-to-wrist distance exceeds 0.38; otherwise none. -/
theorem c6_priority_classification (pts : List (ℤ × ℤ)) (w h : ℤ) :
    ((get_mediapipe_hand (some pts) w h).hand_state = "pinch" ↔
      (thumb_index_dist pts w h < 0.18 ∨ diag_of pts w h < 120)) ∧
    (¬(thumb_index_dist pts w h < 0.18 ∨ diag_of pts w h < 120) →
      (((get_mediapipe_hand (some pts) w h).hand_state = "open" ↔
          avg_tip_to_wrist pts w h > 0.38) ∧
        ((get_mediapipe_hand (some pts) w h).hand_state = "none" ↔
          ¬avg_tip_to_wrist pts w h > 0.38))) := by
  have hs : (get_mediapipe_hand (some pts) w h).hand_state = hand_state_of pts w h := rfl
  rw [hs]
  unfold hand_state_of
  by_cases h1 : thumb_index_dist pts w h < 0.18 ∨ diag_of pts w h < 120
  · rw [if_pos h1]
    exact ⟨iff_of_true rfl h1, fun hc => absurd h1 hc⟩
  · rw [if_neg h1]
    refine ⟨?_, fun _ => ?_⟩
    · have hne : (if avg_tip_to_wrist pts w h > 0.38 then "open" else "none") ≠ "pinch" := by
        by_cases h2 : avg_tip_to_wrist pts w h > 0.38
        · rw [if_pos h2]
          decide
        · rw [if_neg h2]
          decide
      exact iff_of_false hne h1
    · by_cases h2 : avg_tip_to_wrist pts w h > 0.38
      · rw [if_pos h2]
        exact ⟨iff_of_true rfl h2, iff_of_false (by decide) (fun hn => hn h2)⟩
      · rw [if_neg h2]
        exact ⟨iff_of_false (by decide) h2, iff_of_true rfl h2⟩

def c6_pts : List (ℤ × ℤ) :=
  [(0, 0), (300, 400), (0, 0), (0, 0), (0, 0), (0, 0), (0, 0), (0, 0), (30, 40),
   (0, 0), (0, 0), (0, 0), (0, 0), (0, 0), (0, 0), (0, 0), (0, 0), (0, 0), (0, 0),
   (0, 0), (0, 0)]

theorem c6_witness :
    (get_mediapipe_hand (some c6_pts) 1100 700).hand_state = "pinch" := by
  have hb2 : ((bbox_of c6_pts 1100 700).2.2.1 ^ 2 +
      (bbox_of c6_pts 1100 700).2.2.2 ^ 2 : ℤ) = 250000 := by decide
  have hd : diag_of c6_pts 1100 700 = 500 := by
    simp only [diag_of, hb2]
    rw [sqrt_int_eval 250000 500 (by norm_num)]
    norm_num
  have ht : thumb_index_dist c6_pts 1100 700 = 1 / 10 := by
    have h2 : dist_sq (pts_get c6_pts 4) (pts_get c6_pts 8) = 2500 := by decide
    simp only [thumb_index_dist, h2, hd]
    rw [sqrt_int_eval 2500 50 (by norm_num)]
    norm_num
  exact (c6_priority_classification c6_pts 1100 700).1.mpr (Or.inl (by rw [ht]; norm_num))

/-- C8 amended: the bounding box is none exactly when no hand is
detected, and an undetected hand always reports the neutral state none
without throwing; however the state none does not imply an undetected
hand, because a detected hand whose features are neither pinch nor open
is also classified none. -/
theorem c8_observation_invariant (pts? : Option (List (ℤ × ℤ))) (w h : ℤ) :
    ((get_mediapipe_hand pts? w h).hand_bbox = none ↔
      (get_mediapipe_hand pts? w h).hand_detected = false) ∧
    ((get_mediapipe_hand pts? w h).hand_detected = false →
      (get_mediapipe_hand pts? w h).hand_state = "none") := by
  cases pts? with
  | none => exact ⟨iff_of_true rfl rfl, fun _ => rfl⟩
  | some pts =>
    constructor
    · constructor
      · intro hb
        exact absurd hb (by simp [get_mediapipe_hand])
      · intro hd
        exact absurd hd (by simp [get_mediapipe_hand])
    · intro hd
      exact absurd hd (by simp [get_mediapipe_hand])

def c8_pts : List (ℤ × ℤ) :=
  [(0, 0), (300, 400), (0, 0), (0, 0), (30, 0), (0, 0), (0, 0), (0, 0), (130, 0),
   (0, 0), (0, 0), (0, 0), (0, 0), (0, 0), (0, 0), (0, 0), (0, 0), (0, 0), (0, 0),
   (0, 0), (0, 0)]

/-- C8 counterexample: a detected hand (diagonal 500, normalized
thumb-index distance 0.2, openness measure 0.064) is classified none, so
the state none is not equivalent to the hand being undetected. -/
theorem c8_counterexample :
    ¬(((get_mediapipe_hand (some c8_pts) 1100 700).hand_state = "none") ↔
      ((get_mediapipe_hand (some c8_pts) 1100 700).hand_detected = false)) := by
  have hb2 : ((bbox_of c8_pts 1100 700).2.2.1 ^ 2 +
      (bbox_of c8_pts 1100 700).2.2.2 ^ 2 : ℤ) = 250000 := by decide
  have hd : diag_of c8_pts 1100 700 = 500 := by
    simp only [diag_of, hb2]
    rw [sqrt_int_eval 250000 500 (by norm_num)]
    norm_num
  have ht : thumb_index_dist c8_pts 1100 700 = 1 / 5 := by
    have h2 : dist_sq (pts_get c8_pts 4) (pts_get c8_pts 8) = 10000 := by decide
    simp only [thumb_index_dist, h2, hd]
    rw [sqrt_int_eval 10000 100 (by norm_num)]
    norm_num
  have ha : avg_tip_to_wrist c8_pts 1100 700 = 8 / 125 := by
    have h4 : dist_sq (pts_get c8_pts 4) (pts_get c8_pts 0) = 900 := by decide
    have h8 : dist_sq (pts_get c8_pts 8) (pts_get c8_pts 0) = 16900 := by decide
    have h12 : dist_sq (pts_get c8_pts 12) (pts_get c8_pts 0) = 0 := by decide
    have h16 : dist_sq (pts_get c8_pts 16) (pts_get c8_pts 0) = 0 := by decide
    have h20 : dist_sq (pts_get c8_pts 20) (pts_get c8_pts 0) = 0 := by decide
    simp only [avg_tip_to_wrist, fingertip_ids, List.map_cons, List.map_nil, List.sum_cons,
      List.sum_nil, h4, h8, h12, h16, h20, hd]
    rw [sqrt_int_eval 900 30 (by norm_num), sqrt_int_eval 16900 130 (by norm_num),
      sqrt_int_eval 0 0 (by norm_num)]
    norm_num
  have hstate : (get_mediapipe_hand (some c8_pts) 1100 700).hand_state = "none" := by
    have h1 : ¬(thumb_index_dist c8_pts 1100 700 < 0.18 ∨ diag_of c8_pts 1100 700 < 120) := by
      rw [ht, hd]
      push_neg
      constructor <;> norm_num
    have h2 : ¬ avg_tip_to_wrist c8_pts 1100 700 > 0.38 := by
      rw [ha]
      norm_num
    show hand_state_of c8_pts 1100 700 = "none"
    unfold hand_state_of
    rw [if_neg h1, if_neg h2]
  intro hiff
  have hdet : (get_mediapipe_hand (some c8_pts) 1100 700).hand_detected = false :=
    hiff.mp hstate
  exact absurd hdet (by simp [get_mediapipe_hand])

theorem c8_witness :
    (get_mediapipe_hand (none : Option (List (ℤ × ℤ))) 1100 700).hand_bbox = none ∧
    (get_mediapipe_hand (none : Option (List (ℤ × ℤ))) 1100 700).hand_state = "none" :=
  ⟨(c8_observation_invariant none 1100 700).1.mpr rfl,
   (c8_observation_invariant none 1100 700).2 rfl⟩
